import Mathlib

/-!
Verification of the sprite bootstrap launcher (src/sprite_cli/main.py).

The Python module is a single-shot, single-threaded launcher:
`get_sprite_binary_path` (BinaryLocator), the health probe inside
`ensure_sprite_installed` (HealthProbe), `install_sprite` (Installer),
`run_sprite` and `main` (Launcher).

Shallow embedding: every external effect (filesystem lookups, subprocess
invocations, the HTTPS download, prints, sleeps, temp-file creation and
deletion) is driven by an explicit `World` describing the environment and
recorded in an explicit event trace. Python exceptions are modelled by the
`PyExc` type and `Except` results; Python exception-class matching for the
two `except` clauses that appear in the source is modelled by
`caughtByProbeHandler` (the tuple `(TimeoutExpired, SubprocessError,
FileNotFoundError)`) and `caughtByException` (`except Exception`, which in
Python 3 does not catch `KeyboardInterrupt`).
-/

/-- Python exception classes relevant to this program. `otherException`
stands for any Exception subclass other than the named ones (for example
`PermissionError`, raised when spawning a file without execute permission,
or `urllib.error.URLError` from a failed download). -/
inductive PyExc where
  | keyboardInterrupt : PyExc
  | timeoutExpired : PyExc
  | subprocessError : PyExc
  | fileNotFoundError : PyExc
  | otherException : String → PyExc
deriving DecidableEq

/-- The message interpolated for an exception by an f-string such as
`f"Installation failed: \x7be\x7d"`. -/
def excMsg : PyExc → String
  | .keyboardInterrupt => "KeyboardInterrupt"
  | .timeoutExpired => "TimeoutExpired"
  | .subprocessError => "SubprocessError"
  | .fileNotFoundError => "FileNotFoundError"
  | .otherException m => m

/-- Matching of the clause
`except (subprocess.TimeoutExpired, subprocess.SubprocessError, FileNotFoundError)`
in `ensure_sprite_installed`. `TimeoutExpired` is itself a
`SubprocessError` subclass; `PermissionError` and `KeyboardInterrupt` are
matched by none of the three classes. -/
def caughtByProbeHandler : PyExc → Bool
  | .timeoutExpired => true
  | .subprocessError => true
  | .fileNotFoundError => true
  | _ => false

/-- Matching of `except Exception`: in Python 3 every modelled exception is
an `Exception` subclass except `KeyboardInterrupt` (which derives from
`BaseException` directly). -/
def caughtByException : PyExc → Bool
  | .keyboardInterrupt => false
  | _ => true

/-- Result object of a `subprocess.run` call that returned. A `completed`
probe result is by construction one that returned within the timeout
passed to `subprocess.run` (a timeout expiry surfaces as
`raised timeoutExpired` instead). -/
structure CompletedProcess where
  returncode : Int
  stdout : String
  stderr : String
deriving DecidableEq

/-- Outcome of one `subprocess.run` call: either a `CompletedProcess` or a
raised exception. -/
inductive SpawnResult where
  | completed : CompletedProcess → SpawnResult
  | raised : PyExc → SpawnResult
deriving DecidableEq

/-- Observable events of one launcher run, in program order. -/
inductive Event where
  | whichLookup : Event
  | existsCheck : String → Event
  | probeExec : String → Nat → Event
  | printed : String → Event
  | networkFetch : Event
  | tempCreated : String → Event
  | chmodExec : String → Event
  | scriptExec : String → Event
  | tempDeleted : String → Event
  | slept : Nat → Event
  | delegateSpawn : List String → Event
deriving DecidableEq

/-- Events that only read filesystem or search-path state. -/
def Event.isReadOnly : Event → Bool
  | .whichLookup => true
  | .existsCheck _ => true
  | _ => false

/-- Events that are health-probe subprocess invocations. -/
def Event.isProbe : Event → Bool
  | .probeExec _ _ => true
  | _ => false

/-- Events that are calls of `shutil.which` (one per `get_sprite_binary_path`
invocation). -/
def Event.isLocateCall : Event → Bool
  | .whichLookup => true
  | _ => false

/-- Filesystem and search-path state as seen by one `get_sprite_binary_path`
call: the home directory, the result of `shutil.which ("sprite")`, and
`Path.exists` for each path. -/
structure FsView where
  home : String
  which : Option String
  pathExists : String → Bool

/-- Environment of one whole launcher run. `fs0` is the state seen before
the install script runs, `fs1` the state seen by the re-locate after the
install script ran (the script may change the filesystem). `probeRun p` is
the outcome of `subprocess.run [p, "--version"]` with captured output and
timeout 10; `download` the outcome of reading and utf-8 decoding
`INSTALL_SCRIPT_URL`; `tmpName` the name handed out by
`tempfile.NamedTemporaryFile`; `scriptRun` the outcome of
`subprocess.run [tmpName]` with captured output and no timeout;
`delegateRun argv` the outcome of `subprocess.run argv` with inherited
standard streams and no timeout. -/
structure World where
  fs0 : FsView
  fs1 : FsView
  probeRun : String → SpawnResult
  download : Except PyExc String
  tmpName : String
  scriptRun : SpawnResult
  delegateRun : List String → SpawnResult

def SPRITE_VERSION : String := "0.1.0"

def INSTALL_SCRIPT_URL : String :=
  "https://raw.githubusercontent.com/hotaq/Sprit-mutil/main/scripts/install.sh"

/-- The static candidate list built at the top of `get_sprite_binary_path`:
`Path.home()/.cargo/bin/sprite`, `Path.home()/.local/bin/sprite`,
`/usr/local/bin/sprite`, `/usr/bin/sprite`, in source order. -/
def spriteStaticPaths (home : String) : List String :=
  [home ++ "/.cargo/bin/sprite",
   home ++ "/.local/bin/sprite",
   "/usr/local/bin/sprite",
   "/usr/bin/sprite"]

/-- The `for path in paths: if path.exists(): return path` loop: returns the
first path whose existence check succeeds, recording every check made. -/
def findFirstExisting (ex : String → Bool) : List String → List Event × Option String
  | [] => ([], none)
  | p :: rest =>
    if ex p then ([Event.existsCheck p], some p)
    else
      (Event.existsCheck p :: (findFirstExisting ex rest).1, (findFirstExisting ex rest).2)

/-- `get_sprite_binary_path`: first `shutil.which ("sprite")` (returned
directly when non-None), then the static list scanned in order, else None. -/
def get_sprite_binary_path (fs : FsView) : List Event × Option String :=
  match fs.which with
  | some p => ([Event.whichLookup], some p)
  | none =>
    (Event.whichLookup :: (findFirstExisting fs.pathExists (spriteStaticPaths fs.home)).1,
     (findFirstExisting fs.pathExists (spriteStaticPaths fs.home)).2)

def installingMsg : String := "🚀 Installing Sprite Multi-Agent Toolkit..."
def downloadMsg : String := "📥 Downloading installation script..."
def runningMsg : String := "🔧 Running installation..."
def successMsg : String := "✅ Sprite installed successfully!"
def advisory1Msg : String := "⚠️  Installation completed but sprite binary not found in PATH"
def advisory2Msg : String := "Please restart your terminal or add ~/.cargo/bin to your PATH"
def failHeaderMsg : String := "❌ Installation failed:"
def failExcMsg (e : PyExc) : String := "❌ Installation failed: " ++ excMsg e
def failedFindMsg : String := "❌ Failed to install or find sprite"
def interruptMsg : String := "\n👋 Interrupted by user"
def runErrMsg (e : PyExc) : String := "❌ Error running sprite: " ++ excMsg e

/-- `install_sprite`: downloads the install script into a fresh temporary
file (`delete=False`), chmods it 0o755, runs it with captured output and no
timeout, unlinks it, then on exit 0 sleeps 2 seconds and re-locates the
binary; on non-zero exit prints the captured stderr. The whole body sits in
`try ... except Exception as e`. The temporary file is created on entering
the `with NamedTemporaryFile` block, before the download; `f.write` and
`os.chmod` are modelled as non-failing. Note there is no `finally`:
`os.unlink` is reached only when `subprocess.run` of the script returned. -/
def install_sprite (w : World) : List Event × Except PyExc (Option String) :=
  let created : List Event :=
    [Event.tempCreated w.tmpName, Event.printed downloadMsg, Event.networkFetch]
  match w.download with
  | .error e =>
    if caughtByException e then
      (created ++ [Event.printed (failExcMsg e)], Except.ok none)
    else
      (created, Except.error e)
  | .ok _content =>
    let pre := created ++
      [Event.chmodExec w.tmpName, Event.printed runningMsg, Event.scriptExec w.tmpName]
    match w.scriptRun with
    | .raised e =>
      if caughtByException e then
        (pre ++ [Event.printed (failExcMsg e)], Except.ok none)
      else
        (pre, Except.error e)
    | .completed cp =>
      let pre2 := pre ++ [Event.tempDeleted w.tmpName]
      if cp.returncode = 0 then
        let pre3 := pre2 ++ [Event.printed successMsg, Event.slept 2] ++
          (get_sprite_binary_path w.fs1).1
        match (get_sprite_binary_path w.fs1).2 with
        | some q => (pre3, Except.ok (some q))
        | none =>
          (pre3 ++ [Event.printed advisory1Msg, Event.printed advisory2Msg], Except.ok none)
      else
        (pre2 ++ [Event.printed failHeaderMsg, Event.printed cp.stderr], Except.ok none)

/-- `ensure_sprite_installed`: locate; if a path was found and still exists,
probe it with `[path, "--version"]` (captured output, timeout 10) inside
`try ... except (TimeoutExpired, SubprocessError, FileNotFoundError)`; a
zero return code returns the path, every other handled outcome falls
through to printing the installing banner and calling `install_sprite`. An
exception the tuple does not match propagates. -/
def ensure_sprite_installed (w : World) : List Event × Except PyExc (Option String) :=
  let tr0 := (get_sprite_binary_path w.fs0).1
  match (get_sprite_binary_path w.fs0).2 with
  | none =>
    (tr0 ++ [Event.printed installingMsg] ++ (install_sprite w).1, (install_sprite w).2)
  | some p =>
    let tr0e := tr0 ++ [Event.existsCheck p]
    if w.fs0.pathExists p then
      match w.probeRun p with
      | .completed cp =>
        if cp.returncode = 0 then
          (tr0e ++ [Event.probeExec p 10], Except.ok (some p))
        else
          (tr0e ++ [Event.probeExec p 10, Event.printed installingMsg] ++ (install_sprite w).1,
           (install_sprite w).2)
      | .raised e =>
        if caughtByProbeHandler e then
          (tr0e ++ [Event.probeExec p 10, Event.printed installingMsg] ++ (install_sprite w).1,
           (install_sprite w).2)
        else
          (tr0e ++ [Event.probeExec p 10], Except.error e)
    else
      (tr0e ++ [Event.printed installingMsg] ++ (install_sprite w).1, (install_sprite w).2)

/-- `run_sprite args`: resolve via `ensure_sprite_installed` (outside any
try block, so its exceptions propagate), return 1 with a message when no
path was resolved, otherwise `subprocess.run ([path] ++ args)` with
inherited standard streams inside `try ... except KeyboardInterrupt ...
except Exception`. -/
def run_sprite (w : World) (args : List String) : List Event × Except PyExc Int :=
  let tr := (ensure_sprite_installed w).1
  match (ensure_sprite_installed w).2 with
  | .error e => (tr, Except.error e)
  | .ok none => (tr ++ [Event.printed failedFindMsg], Except.ok 1)
  | .ok (some p) =>
    match w.delegateRun (p :: args) with
    | .completed cp =>
      (tr ++ [Event.delegateSpawn (p :: args)], Except.ok cp.returncode)
    | .raised PyExc.keyboardInterrupt =>
      (tr ++ [Event.delegateSpawn (p :: args), Event.printed interruptMsg], Except.ok 130)
    | .raised e =>
      if caughtByException e then
        (tr ++ [Event.delegateSpawn (p :: args), Event.printed (runErrMsg e)], Except.ok 1)
      else
        (tr ++ [Event.delegateSpawn (p :: args)], Except.error e)

/-- The fixed usage text printed for `--help` / `-h` (the triple-quoted
string in `main`, passed to a single `print`). -/
def usageText : String :=
  "Sprite Multi-Agent Workflow Toolkit 🤖

USAGE:
    sprite [COMMAND] [OPTIONS]

COMMANDS:
    init          Initialize a new multi-agent environment
    start         Start a multi-agent session
    attach        Attach to an existing session
    kill          Terminate a session
    status        Show system and session status
    agents        Manage AI agents
    config        Configuration management
    help          Show this help message

QUICK START:
    sprite init --agents 3
    sprite start
    sprite attach sprite-session

INSTALLATION:
    This Python wrapper will automatically install the Rust binary if needed.
    For manual installation, visit: https://github.com/hotaq/Sprit-mutil

For detailed help, run: sprite help
"

namespace sprite_cli

/-- `main`, with `args` modelling `sys.argv[1:]` (so `len(sys.argv) > 1`
becomes `args` being non-empty and `sys.argv[1]` its head). -/
def main (w : World) (args : List String) : List Event × Except PyExc Int :=
  match args with
  | a :: _ =>
    if a ∈ ["--version", "-V"] then
      ([Event.printed ("sprite " ++ SPRITE_VERSION)], Except.ok 0)
    else if a ∈ ["--help", "-h"] then
      ([Event.printed usageText], Except.ok 0)
    else
      run_sprite w args
  | [] => run_sprite w []

end sprite_cli

/-- Whether `sys.argv[1]` exists and is one of the four informational
flags intercepted by `main`. -/
def headIsInfoFlag : List String → Bool
  | a :: _ => decide (a ∈ ["--version", "-V"]) || decide (a ∈ ["--help", "-h"])
  | [] => false

theorem findFirstExisting_snd (ex : String → Bool) (l : List String) :
    (findFirstExisting ex l).2 = l.find? ex := by
  induction l with
  | nil => rfl
  | cons p rest ih =>
    by_cases h : ex p
    · simp [findFirstExisting, h, List.find?_cons_of_pos]
    · simp [findFirstExisting, h, List.find?_cons_of_neg, ih]

theorem findFirstExisting_trace_mem (ex : String → Bool) (l : List String) (ev : Event)
    (h : ev ∈ (findFirstExisting ex l).1) : ∃ p, ev = Event.existsCheck p := by
  induction l with
  | nil => simp [findFirstExisting] at h
  | cons p rest ih =>
    by_cases hp : ex p
    · simp [findFirstExisting, hp] at h
      exact ⟨p, h⟩
    · simp [findFirstExisting, hp] at h
      rcases h with h | h
      · exact ⟨p, h⟩
      · exact ih h

theorem get_path_trace_readOnly (fs : FsView) (ev : Event)
    (h : ev ∈ (get_sprite_binary_path fs).1) : ev.isReadOnly = true := by
  cases hw : fs.which with
  | some p =>
    simp [get_sprite_binary_path, hw] at h
    simp [h, Event.isReadOnly]
  | none =>
    simp [get_sprite_binary_path, hw] at h
    rcases h with h | h
    · simp [h, Event.isReadOnly]
    · obtain ⟨p, rfl⟩ := findFirstExisting_trace_mem _ _ _ h
      simp [Event.isReadOnly]

theorem get_path_locate_count (fs : FsView) :
    ((get_sprite_binary_path fs).1.countP Event.isLocateCall) = 1 := by
  cases hw : fs.which with
  | some p => simp [get_sprite_binary_path, hw, List.countP_cons, Event.isLocateCall]
  | none =>
    simp only [get_sprite_binary_path, hw, List.countP_cons, Event.isLocateCall]
    rw [List.countP_eq_zero.2]
    · rfl
    · intro ev hev
      obtain ⟨p, rfl⟩ := findFirstExisting_trace_mem _ _ _ hev
      simp [Event.isLocateCall]

theorem get_path_some_exists (fs : FsView) (p : String)
    (hwf : ∀ q, fs.which = some q → fs.pathExists q = true)
    (h : (get_sprite_binary_path fs).2 = some p) : fs.pathExists p = true := by
  cases hw : fs.which with
  | some q =>
    simp [get_sprite_binary_path, hw] at h
    exact h ▸ hwf q hw
  | none =>
    simp only [get_sprite_binary_path, hw] at h
    rw [findFirstExisting_snd] at h
    exact List.find?_some h

theorem get_path_not_mem (fs : FsView) (ev : Event) (hev : ev.isReadOnly = false) :
    ev ∉ (get_sprite_binary_path fs).1 := by
  intro h
  rw [get_path_trace_readOnly fs ev h] at hev
  exact absurd hev (by simp)

theorem Event.readOnly_not_probe (ev : Event) (h : ev.isReadOnly = true) :
    ev.isProbe = false := by
  cases ev <;> simp [Event.isReadOnly, Event.isProbe] at *

/-- Every run of `install_sprite` fetches the script URL before anything can
fail, so the network-fetch event marks exactly the runs in which the
installer was invoked. -/
theorem install_networkFetch_mem (w : World) :
    Event.networkFetch ∈ (install_sprite w).1 := by
  cases hd : w.download with
  | error e =>
    by_cases hc : caughtByException e <;> simp [install_sprite, hd, hc]
  | ok s =>
    cases hs : w.scriptRun with
    | raised e =>
      by_cases hc : caughtByException e <;> simp [install_sprite, hd, hs, hc]
    | completed cp =>
      by_cases hrc : cp.returncode = 0
      · cases hq : (get_sprite_binary_path w.fs1).2 <;>
          simp [install_sprite, hd, hs, hrc, hq]
      · simp [install_sprite, hd, hs, hrc]

/-- The installer never runs a health probe: no event of its trace is a
probe invocation. -/
theorem install_trace_no_probe (w : World) (ev : Event)
    (h : ev ∈ (install_sprite w).1) : ev.isProbe = false := by
  cases hd : w.download with
  | error e =>
    by_cases hc : caughtByException e <;> simp [install_sprite, hd, hc] at h <;>
      rcases h with rfl | rfl | rfl | rfl <;> rfl
  | ok s =>
    cases hs : w.scriptRun with
    | raised e =>
      by_cases hc : caughtByException e <;> simp [install_sprite, hd, hs, hc] at h <;>
        rcases h with rfl | rfl | rfl | rfl | rfl | rfl | rfl <;> rfl
    | completed cp =>
      by_cases hrc : cp.returncode = 0
      · cases hq : (get_sprite_binary_path w.fs1).2 with
        | none =>
          simp [install_sprite, hd, hs, hrc, hq] at h
          rcases h with rfl | rfl | rfl | rfl | rfl | rfl | rfl | rfl | rfl | h | rfl | rfl <;>
            first
              | rfl
              | exact Event.readOnly_not_probe ev (get_path_trace_readOnly w.fs1 ev h)
        | some q =>
          simp [install_sprite, hd, hs, hrc, hq] at h
          rcases h with rfl | rfl | rfl | rfl | rfl | rfl | rfl | rfl | rfl | h <;>
            first
              | rfl
              | exact Event.readOnly_not_probe ev (get_path_trace_readOnly w.fs1 ev h)
      · simp [install_sprite, hd, hs, hrc] at h
        rcases h with rfl | rfl | rfl | rfl | rfl | rfl | rfl | rfl | rfl <;> rfl

/-- When the initial locate finds nothing, `ensure_sprite_installed` prints
the installing banner and defers entirely to `install_sprite`. -/
theorem ensure_locate_none (w : World)
    (hloc : (get_sprite_binary_path w.fs0).2 = none) :
    ensure_sprite_installed w =
      ((get_sprite_binary_path w.fs0).1 ++ [Event.printed installingMsg] ++
        (install_sprite w).1, (install_sprite w).2) := by
  simp [ensure_sprite_installed, hloc]

/-- When the probe completes with a non-zero return code, control falls
through to `install_sprite`. -/
theorem ensure_probe_nonzero (w : World) (p : String) (cp : CompletedProcess)
    (hloc : (get_sprite_binary_path w.fs0).2 = some p)
    (hex : w.fs0.pathExists p = true)
    (hpr : w.probeRun p = SpawnResult.completed cp)
    (hrc : cp.returncode ≠ 0) :
    ensure_sprite_installed w =
      ((get_sprite_binary_path w.fs0).1 ++
        [Event.existsCheck p, Event.probeExec p 10, Event.printed installingMsg] ++
        (install_sprite w).1, (install_sprite w).2) := by
  simp [ensure_sprite_installed, hloc, hex, hpr, hrc]

/-- When the probe raises an exception matched by the handler tuple, control
falls through to `install_sprite`. -/
theorem ensure_probe_caught (w : World) (p : String) (e : PyExc)
    (hloc : (get_sprite_binary_path w.fs0).2 = some p)
    (hex : w.fs0.pathExists p = true)
    (hpr : w.probeRun p = SpawnResult.raised e)
    (hc : caughtByProbeHandler e = true) :
    ensure_sprite_installed w =
      ((get_sprite_binary_path w.fs0).1 ++
        [Event.existsCheck p, Event.probeExec p 10, Event.printed installingMsg] ++
        (install_sprite w).1, (install_sprite w).2) := by
  simp [ensure_sprite_installed, hloc, hex, hpr, hc]

/-- When the probe completes with return code zero, the located path is
returned and the installer is never reached. -/
theorem ensure_probe_zero (w : World) (p : String) (cp : CompletedProcess)
    (hloc : (get_sprite_binary_path w.fs0).2 = some p)
    (hex : w.fs0.pathExists p = true)
    (hpr : w.probeRun p = SpawnResult.completed cp)
    (hrc : cp.returncode = 0) :
    ensure_sprite_installed w =
      ((get_sprite_binary_path w.fs0).1 ++ [Event.existsCheck p, Event.probeExec p 10],
       Except.ok (some p)) := by
  simp [ensure_sprite_installed, hloc, hex, hpr, hrc]

/-- When the probe raises an exception the handler tuple does not match, it
propagates out of `ensure_sprite_installed`. -/
theorem ensure_probe_uncaught (w : World) (p : String) (e : PyExc)
    (hloc : (get_sprite_binary_path w.fs0).2 = some p)
    (hex : w.fs0.pathExists p = true)
    (hpr : w.probeRun p = SpawnResult.raised e)
    (hc : caughtByProbeHandler e = false) :
    ensure_sprite_installed w =
      ((get_sprite_binary_path w.fs0).1 ++ [Event.existsCheck p, Event.probeExec p 10],
       Except.error e) := by
  simp [ensure_sprite_installed, hloc, hex, hpr, hc]

/-- Shared fixture: a filesystem view in which nothing exists. -/
def fsEmpty : FsView := ⟨"/home/user", none, fun _ => false⟩

/-- Shared fixture: the search path hits `/usr/local/bin/sprite`, which
exists. -/
def fsWhichHit : FsView :=
  ⟨"/home/user", some ("/usr/local/bin/sprite"), fun p => p == "/usr/local/bin/sprite"⟩

/-- Shared fixture: nothing on the search path, but
`/home/user/.local/bin/sprite` exists on disk. -/
def fsLocalBin : FsView :=
  ⟨"/home/user", none, fun p => p == "/home/user/.local/bin/sprite"⟩

def okProc : CompletedProcess := ⟨0, "", ""⟩

/-- Shared fixture: a healthy world; the located binary probes fine and the
delegated run exits with status 7. -/
def wHappy : World :=
  ⟨fsWhichHit, fsWhichHit, fun _ => SpawnResult.completed okProc,
   Except.ok ("#!/bin/sh"), "/tmp/tmpinstall1.sh", SpawnResult.completed okProc,
   fun _ => SpawnResult.completed ⟨7, "agent ran", ""⟩⟩

/-- Shared fixture: nothing on the search path, only `/usr/bin/sprite`
exists on disk. -/
def fsUsrBin : FsView := ⟨"/home/user", none, fun p => p == "/usr/bin/sprite"⟩

def permMsg : String := "PermissionError: [Errno 13] Permission denied"

/-- Shared fixture: the probe subprocess raises an exception outside the
handled tuple (a PermissionError, as raised by `subprocess.run` for a file
without execute permission). -/
def wPermDenied : World :=
  ⟨fsUsrBin, fsEmpty,
   fun _ => SpawnResult.raised (PyExc.otherException permMsg),
   Except.ok ("#!/bin/sh"), "/tmp/tmpinstall0.sh", SpawnResult.completed okProc,
   fun _ => SpawnResult.completed okProc⟩

/-- Shared fixture: the script download raises an HTTP error after the
temporary file has already been created. -/
def wDownloadFail : World :=
  ⟨fsEmpty, fsEmpty, fun _ => SpawnResult.raised PyExc.fileNotFoundError,
   Except.error (PyExc.otherException ("HTTP Error 404: Not Found")),
   "/tmp/tmpinstall2.sh", SpawnResult.completed okProc,
   fun _ => SpawnResult.completed okProc⟩

/-- Shared fixture: nothing installed initially; the download works and the
install script exits 0, after which `~/.local/bin/sprite` exists. -/
def wInstallOk : World :=
  ⟨fsEmpty, fsLocalBin, fun _ => SpawnResult.raised PyExc.fileNotFoundError,
   Except.ok ("#!/bin/sh"), "/tmp/tmpinstall3.sh", SpawnResult.completed okProc,
   fun _ => SpawnResult.completed ⟨0, "", ""⟩⟩

/-- C1 counterexample: in a run whose script download raises an HTTP error
after the temporary file has been created, `install_sprite` returns
(`None`, via the `except Exception` clause) without ever deleting the
temporary file — the claimed "deleted regardless of whether the download
step succeeds" fails on the code, which has no `finally` around the
cleanup. -/
theorem temp_file_leaked_on_download_failure :
    Event.tempCreated ("/tmp/tmpinstall2.sh") ∈ (install_sprite wDownloadFail).1 ∧
    Event.tempDeleted ("/tmp/tmpinstall2.sh") ∉ (install_sprite wDownloadFail).1 ∧
    (install_sprite wDownloadFail).2 = Except.ok none :=
  ⟨by decide, by decide, rfl⟩

/-- C1 amended: the temporary file is deleted exactly when the download
succeeded and the script subprocess returned (with any exit status); when
the download raises after creating the file, or the script subprocess
itself raises, `install_sprite` ends without deleting it. -/
theorem install_temp_deleted_iff (w : World) :
    Event.tempDeleted w.tmpName ∈ (install_sprite w).1 ↔
      (∃ s, w.download = Except.ok s) ∧
      (∃ cp, w.scriptRun = SpawnResult.completed cp) := by
  cases hd : w.download with
  | error e =>
    by_cases hc : caughtByException e <;> simp [install_sprite, hd, hc]
  | ok s =>
    cases hs : w.scriptRun with
    | raised e =>
      by_cases hc : caughtByException e <;> simp [install_sprite, hd, hs, hc]
    | completed cp =>
      by_cases hrc : cp.returncode = 0
      · cases hq : (get_sprite_binary_path w.fs1).2 with
        | none => simp [install_sprite, hd, hs, hrc, hq]
        | some q => simp [install_sprite, hd, hs, hrc, hq]
      · simp [install_sprite, hd, hs, hrc]

/-- C1 amended witness: in the fixture world where download and script both
succeed, the deletion event is in the installer trace. -/
theorem install_temp_deleted_iff_witness :
    Event.tempDeleted ("/tmp/tmpinstall3.sh") ∈ (install_sprite wInstallOk).1 :=
  (install_temp_deleted_iff wInstallOk).mpr ⟨⟨"#!/bin/sh", rfl⟩, ⟨okProc, rfl⟩⟩

/-- C2 counterexample: a spawn failure of the probe that raises an
exception outside the tuple `(TimeoutExpired, SubprocessError,
FileNotFoundError)` — here a PermissionError for a candidate without
execute permission — is not classified as failure-triggering-install: it
propagates out of `ensure_sprite_installed` and the installer is never
invoked, refuting "any spawn failure ... triggers installation rather than
surfacing an error". -/
theorem probe_spawn_failure_surfaces_error :
    wPermDenied.probeRun ("/usr/bin/sprite") =
      SpawnResult.raised (PyExc.otherException permMsg) ∧
    (ensure_sprite_installed wPermDenied).2 =
      Except.error (PyExc.otherException permMsg) ∧
    Event.networkFetch ∉ (ensure_sprite_installed wPermDenied).1 :=
  ⟨rfl, rfl, by decide⟩

/-- C2 amended: for a located, existing candidate, the probe classifies it
as success exactly on a zero exit within the timeout (the path is returned
and the installer is not reached); a non-zero exit, a timeout expiry, or a
spawn failure raising `FileNotFoundError` or a `SubprocessError` is
classified as failure and triggers installation; but a probe exception
outside that tuple (e.g. `PermissionError`) propagates to the caller
instead of triggering installation. -/
theorem probe_failure_classification (w : World) (p : String)
    (hloc : (get_sprite_binary_path w.fs0).2 = some p)
    (hex : w.fs0.pathExists p = true) :
    (∀ cp, w.probeRun p = SpawnResult.completed cp → cp.returncode = 0 →
      (ensure_sprite_installed w).2 = Except.ok (some p) ∧
      Event.networkFetch ∉ (ensure_sprite_installed w).1) ∧
    (∀ cp, w.probeRun p = SpawnResult.completed cp → cp.returncode ≠ 0 →
      (ensure_sprite_installed w).2 = (install_sprite w).2 ∧
      Event.networkFetch ∈ (ensure_sprite_installed w).1) ∧
    (∀ e, w.probeRun p = SpawnResult.raised e → caughtByProbeHandler e = true →
      (ensure_sprite_installed w).2 = (install_sprite w).2 ∧
      Event.networkFetch ∈ (ensure_sprite_installed w).1) ∧
    (∀ e, w.probeRun p = SpawnResult.raised e → caughtByProbeHandler e = false →
      (ensure_sprite_installed w).2 = Except.error e ∧
      Event.networkFetch ∉ (ensure_sprite_installed w).1) := by
  refine ⟨?_, ?_, ?_, ?_⟩
  · intro cp hpr hrc
    rw [ensure_probe_zero w p cp hloc hex hpr hrc]
    refine ⟨rfl, ?_⟩
    intro hmem
    rcases List.mem_append.1 hmem with h | h
    · exact get_path_not_mem w.fs0 Event.networkFetch rfl h
    · simp at h
  · intro cp hpr hrc
    rw [ensure_probe_nonzero w p cp hloc hex hpr hrc]
    exact ⟨rfl, List.mem_append_right _ (install_networkFetch_mem w)⟩
  · intro e hpr hc
    rw [ensure_probe_caught w p e hloc hex hpr hc]
    exact ⟨rfl, List.mem_append_right _ (install_networkFetch_mem w)⟩
  · intro e hpr hc
    rw [ensure_probe_uncaught w p e hloc hex hpr hc]
    refine ⟨rfl, ?_⟩
    intro hmem
    rcases List.mem_append.1 hmem with h | h
    · exact get_path_not_mem w.fs0 Event.networkFetch rfl h
    · simp at h

/-- C2 amended witness: in the healthy fixture the probe succeeds and the
path is returned with no installer activity; in the PermissionError
fixture the exception surfaces and the installer is never invoked. -/
theorem probe_failure_classification_witness :
    ((ensure_sprite_installed wHappy).2 =
        Except.ok (some ("/usr/local/bin/sprite")) ∧
      Event.networkFetch ∉ (ensure_sprite_installed wHappy).1) ∧
    ((ensure_sprite_installed wPermDenied).2 =
        Except.error (PyExc.otherException permMsg) ∧
      Event.networkFetch ∉ (ensure_sprite_installed wPermDenied).1) :=
  ⟨(probe_failure_classification wHappy ("/usr/local/bin/sprite") rfl rfl).1
      okProc rfl rfl,
   (probe_failure_classification wPermDenied ("/usr/bin/sprite") rfl rfl).2.2.2
      (PyExc.otherException permMsg) rfl rfl⟩

/-- C3: when the locator finds a path (under the `shutil.which` soundness
condition that a search-path hit exists on disk) and the probe on that
exact path completes with exit status zero, the installer is never invoked
(no network fetch, no temp file, no script execution) and the launcher
delegates to exactly that path, adopting its exit status. -/
theorem happy_path_never_installs (w : World) (args : List String) (p : String)
    (cp cpd : CompletedProcess)
    (hwf : ∀ q, w.fs0.which = some q → w.fs0.pathExists q = true)
    (hloc : (get_sprite_binary_path w.fs0).2 = some p)
    (hpr : w.probeRun p = SpawnResult.completed cp)
    (hrc : cp.returncode = 0)
    (hdel : w.delegateRun (p :: args) = SpawnResult.completed cpd) :
    (ensure_sprite_installed w).2 = Except.ok (some p) ∧
    Event.networkFetch ∉ (ensure_sprite_installed w).1 ∧
    Event.tempCreated w.tmpName ∉ (ensure_sprite_installed w).1 ∧
    Event.scriptExec w.tmpName ∉ (ensure_sprite_installed w).1 ∧
    (run_sprite w args).2 = Except.ok cpd.returncode ∧
    Event.delegateSpawn (p :: args) ∈ (run_sprite w args).1 := by
  have hex := get_path_some_exists w.fs0 p hwf hloc
  have hens := ensure_probe_zero w p cp hloc hex hpr hrc
  have hnot : ∀ ev : Event, ev.isReadOnly = false → ev.isProbe = false →
      ev ∉ (ensure_sprite_installed w).1 := by
    intro ev hev hevp hmem
    rw [hens] at hmem
    rcases List.mem_append.1 hmem with h | h
    · rw [get_path_trace_readOnly w.fs0 ev h] at hev
      exact absurd hev (by simp)
    · rcases List.mem_cons.1 h with rfl | h
      · simp [Event.isReadOnly] at hev
      · rcases List.mem_cons.1 h with rfl | h
        · simp [Event.isProbe] at hevp
        · simp at h
  refine ⟨by rw [hens], hnot Event.networkFetch rfl rfl,
    hnot (Event.tempCreated w.tmpName) rfl rfl,
    hnot (Event.scriptExec w.tmpName) rfl rfl, ?_, ?_⟩
  · simp [run_sprite, hens, hdel]
  · simp [run_sprite, hens, hdel]

/-- C3 witness: in the healthy fixture world the binary is found on the
search path, probes healthy, no installer activity happens and delegation
mirrors the exit status 7. -/
theorem happy_path_never_installs_witness :
    (ensure_sprite_installed wHappy).2 =
      Except.ok (some ("/usr/local/bin/sprite")) ∧
    Event.networkFetch ∉ (ensure_sprite_installed wHappy).1 ∧
    Event.tempCreated ("/tmp/tmpinstall1.sh") ∉ (ensure_sprite_installed wHappy).1 ∧
    Event.scriptExec ("/tmp/tmpinstall1.sh") ∉ (ensure_sprite_installed wHappy).1 ∧
    (run_sprite wHappy ["status"]).2 = Except.ok 7 ∧
    Event.delegateSpawn ["/usr/local/bin/sprite", "status"] ∈
      (run_sprite wHappy ["status"]).1 :=
  happy_path_never_installs wHappy ["status"] ("/usr/local/bin/sprite")
    okProc ⟨7, "agent ran", ""⟩ (fun q hq => by cases hq; rfl) rfl rfl rfl rfl

/-- C4: the locator result is determined by a fixed priority order: a
search-path (`shutil.which`) hit is returned in preference to the static
list; otherwise the static list is scanned in source order — the two
user-scoped directories (`~/.cargo/bin`, `~/.local/bin`) before the two
system-wide ones (`/usr/local/bin`, `/usr/bin`) — returning the first path
that exists (`List.find?`); with no search-path hit and no existing
candidate it returns `none`; and the locator trace holds only read-only
events (no side effects). -/
theorem locator_priority_order (fs : FsView) :
    (∀ p, fs.which = some p → (get_sprite_binary_path fs).2 = some p) ∧
    (fs.which = none →
      (get_sprite_binary_path fs).2 =
        [fs.home ++ "/.cargo/bin/sprite",
         fs.home ++ "/.local/bin/sprite",
         "/usr/local/bin/sprite",
         "/usr/bin/sprite"].find? fs.pathExists) ∧
    (fs.which = none → (∀ q ∈ spriteStaticPaths fs.home, fs.pathExists q = false) →
      (get_sprite_binary_path fs).2 = none) ∧
    (∀ ev ∈ (get_sprite_binary_path fs).1, ev.isReadOnly = true) := by
  refine ⟨?_, ?_, ?_, fun ev h => get_path_trace_readOnly fs ev h⟩
  · intro p hw
    simp [get_sprite_binary_path, hw]
  · intro hw
    simp only [get_sprite_binary_path, hw]
    exact findFirstExisting_snd fs.pathExists (spriteStaticPaths fs.home)
  · intro hw hnone
    simp only [get_sprite_binary_path, hw]
    rw [findFirstExisting_snd, List.find?_eq_none]
    intro q hq
    simp [hnone q hq]

/-- C4 witness: at the fixtures, a search-path hit wins, and with no
search-path hit the first existing static candidate (the user-scoped
`~/.local/bin/sprite`) is returned, while the empty filesystem yields
`none`. -/
theorem locator_priority_order_witness :
    (get_sprite_binary_path fsWhichHit).2 = some ("/usr/local/bin/sprite") ∧
    (get_sprite_binary_path fsLocalBin).2 =
      ["/home/user/.cargo/bin/sprite",
       "/home/user/.local/bin/sprite",
       "/usr/local/bin/sprite",
       "/usr/bin/sprite"].find? fsLocalBin.pathExists ∧
    (get_sprite_binary_path fsEmpty).2 = none :=
  ⟨(locator_priority_order fsWhichHit).1 ("/usr/local/bin/sprite") rfl,
   (locator_priority_order fsLocalBin).2.1 rfl,
   (locator_priority_order fsEmpty).2.2.1 rfl (by decide)⟩

/-- C5: for an argument vector whose head is not a version or help flag,
once a binary path has been resolved, `main` spawns exactly that binary
with the forwarded argument vector appended verbatim after the path (the
launcher program name is already excluded because `sys.argv[1:]` is
forwarded) and returns the exit status of the delegated process unchanged. The
spawn inherits the standard streams: `delegateRun` models the
`subprocess.run` call made without output capture. -/
theorem launcher_delegates_verbatim (w : World) (args : List String) (p : String)
    (cp : CompletedProcess)
    (hflag : headIsInfoFlag args = false)
    (hres : (ensure_sprite_installed w).2 = Except.ok (some p))
    (hdel : w.delegateRun (p :: args) = SpawnResult.completed cp) :
    sprite_cli.main w args =
      ((ensure_sprite_installed w).1 ++ [Event.delegateSpawn (p :: args)],
       Except.ok cp.returncode) := by
  cases args with
  | nil => simp [sprite_cli.main, run_sprite, hres, hdel]
  | cons a rest =>
    simp only [headIsInfoFlag, Bool.or_eq_false_iff, decide_eq_false_iff_not,
      List.mem_cons, List.mem_singleton] at hflag
    obtain ⟨h1, h2⟩ := hflag
    have h1a : ¬(a = "--version" ∨ a = "-V") := fun hc => h1 (by tauto)
    have h2a : ¬(a = "--help" ∨ a = "-h") := fun hc => h2 (by tauto)
    simp [sprite_cli.main, List.mem_cons, h1a, h2a, run_sprite, hres, hdel]

/-- C5 witness: in the healthy fixture world, `main` run on the argument
vector `["start", "--agents", "3"]` delegates to the resolved binary with
the arguments appended verbatim and mirrors its exit status 7. -/
theorem launcher_delegates_verbatim_witness :
    sprite_cli.main wHappy ["start", "--agents", "3"] =
      ((ensure_sprite_installed wHappy).1 ++
        [Event.delegateSpawn
          ["/usr/local/bin/sprite", "start", "--agents", "3"]],
       Except.ok 7) :=
  launcher_delegates_verbatim wHappy ["start", "--agents", "3"]
    "/usr/local/bin/sprite" ⟨7, "agent ran", ""⟩ (by decide) rfl rfl

/-- C6: when the first forwarded argument is a version token or a help
token, `main` prints the version line or the fixed usage text, returns exit
code 0, and its whole event trace is that single print: no filesystem
lookup, probe, network access, installation or delegation happens. -/
theorem info_flags_no_side_effects (w : World) (args : List String) (a : String)
    (hhead : args.head? = some a) :
    (a ∈ ["--version", "-V"] →
      sprite_cli.main w args =
        ([Event.printed ("sprite " ++ SPRITE_VERSION)], Except.ok 0)) ∧
    (a ∈ ["--help", "-h"] →
      sprite_cli.main w args = ([Event.printed usageText], Except.ok 0)) := by
  cases args with
  | nil => simp at hhead
  | cons b rest =>
    simp only [List.head?_cons, Option.some.injEq] at hhead
    subst hhead
    constructor
    · intro h
      simp [sprite_cli.main, h]
    · intro h
      simp only [List.mem_cons, List.not_mem_nil, or_false] at h
      rcases h with rfl | rfl <;> simp [sprite_cli.main]

/-- C6 witness: `main` on `["--version"]` prints only the version line and
returns 0; `main` on `["--help"]` prints only the usage text and returns 0,
in a world where any other action would be observable. -/
theorem info_flags_no_side_effects_witness :
    sprite_cli.main wHappy ["--version"] =
      ([Event.printed ("sprite " ++ SPRITE_VERSION)], Except.ok 0) ∧
    sprite_cli.main wHappy ["--help"] =
      ([Event.printed usageText], Except.ok 0) :=
  ⟨(info_flags_no_side_effects wHappy ["--version"] ("--version") rfl).1 (by decide),
   (info_flags_no_side_effects wHappy ["--help"] ("--help") rfl).2 (by decide)⟩

/-- Shared fixture: installation succeeds but the re-locate still finds no
binary. -/
def wInstallNotFound : World :=
  ⟨fsEmpty, fsEmpty, fun _ => SpawnResult.raised PyExc.fileNotFoundError,
   Except.ok ("#!/bin/sh"), "/tmp/tmpinstall6.sh", SpawnResult.completed okProc,
   fun _ => SpawnResult.completed okProc⟩

/-- Shared fixture: the install script exits 1 with diagnostic text on
standard error. -/
def wScriptFail : World :=
  ⟨fsEmpty, fsEmpty, fun _ => SpawnResult.raised PyExc.fileNotFoundError,
   Except.ok ("#!/bin/sh"), "/tmp/tmpinstall7.sh",
   SpawnResult.completed ⟨1, "", "cargo: command not found"⟩,
   fun _ => SpawnResult.completed okProc⟩

/-- C7: when the install script exits zero, the installer sleeps 2 units
and re-runs the locator exactly once; a re-located binary is returned as
success, and otherwise the installer prints the two advisory lines
(restart the terminal / adjust PATH) and returns `None` — a soft failure,
not a raised error — after which the launcher prints its failure line and
returns exit code 1. -/
theorem install_zero_exit_relocates (w : World) (args : List String) (s : String)
    (cp : CompletedProcess)
    (hdl : w.download = Except.ok s)
    (hsr : w.scriptRun = SpawnResult.completed cp)
    (hrc : cp.returncode = 0) :
    Event.slept 2 ∈ (install_sprite w).1 ∧
    (install_sprite w).1.countP Event.isLocateCall = 1 ∧
    (∀ q, (get_sprite_binary_path w.fs1).2 = some q →
      (install_sprite w).2 = Except.ok (some q)) ∧
    ((get_sprite_binary_path w.fs1).2 = none →
      (install_sprite w).2 = Except.ok none ∧
      Event.printed advisory1Msg ∈ (install_sprite w).1 ∧
      Event.printed advisory2Msg ∈ (install_sprite w).1) ∧
    ((get_sprite_binary_path w.fs0).2 = none →
      (get_sprite_binary_path w.fs1).2 = none →
      (run_sprite w args).2 = Except.ok 1 ∧
      Event.printed failedFindMsg ∈ (run_sprite w args).1) := by
  cases hq : (get_sprite_binary_path w.fs1).2 with
  | some q =>
    refine ⟨?_, ?_, ?_, ?_, ?_⟩
    · simp [install_sprite, hdl, hsr, hrc, hq]
    · simp [install_sprite, hdl, hsr, hrc, hq, List.countP_append, List.countP_cons,
        Event.isLocateCall, get_path_locate_count w.fs1]
    · intro q2 hq2
      injection hq2 with h
      subst h
      simp [install_sprite, hdl, hsr, hrc, hq]
    · intro hn
      exact absurd hn (by simp)
    · intro _ hn
      exact absurd hn (by simp)
  | none =>
    have hinst : (install_sprite w).2 = Except.ok none := by
      simp [install_sprite, hdl, hsr, hrc, hq]
    refine ⟨?_, ?_, ?_, ?_, ?_⟩
    · simp [install_sprite, hdl, hsr, hrc, hq]
    · simp [install_sprite, hdl, hsr, hrc, hq, List.countP_append, List.countP_cons,
        Event.isLocateCall, get_path_locate_count w.fs1]
    · intro q2 hq2
      exact absurd hq2 (by simp)
    · intro _
      exact ⟨hinst, by simp [install_sprite, hdl, hsr, hrc, hq],
        by simp [install_sprite, hdl, hsr, hrc, hq]⟩
    · intro hl0 _
      have hens := ensure_locate_none w hl0
      constructor
      · simp [run_sprite, hens, hinst]
      · simp [run_sprite, hens, hinst]

/-- C7 witness: with the script exiting zero, the re-locate finds
`~/.local/bin/sprite` in one fixture (success with that path); in the
fixture where nothing appears, the advisories are printed, installation
reports no path and the launcher returns 1. -/
theorem install_zero_exit_relocates_witness :
    (Event.slept 2 ∈ (install_sprite wInstallOk).1 ∧
      (install_sprite wInstallOk).2 =
        Except.ok (some ("/home/user/.local/bin/sprite"))) ∧
    ((install_sprite wInstallNotFound).2 = Except.ok none ∧
      Event.printed advisory1Msg ∈ (install_sprite wInstallNotFound).1 ∧
      Event.printed advisory2Msg ∈ (install_sprite wInstallNotFound).1) ∧
    (run_sprite wInstallNotFound ["init"]).2 = Except.ok 1 :=
  ⟨⟨(install_zero_exit_relocates wInstallOk [] ("#!/bin/sh") okProc rfl rfl rfl).1,
    (install_zero_exit_relocates wInstallOk [] ("#!/bin/sh") okProc rfl rfl rfl).2.2.1
      "/home/user/.local/bin/sprite" rfl⟩,
   (install_zero_exit_relocates wInstallNotFound [] ("#!/bin/sh") okProc rfl rfl rfl).2.2.2.1
      rfl,
   ((install_zero_exit_relocates wInstallNotFound ["init"] ("#!/bin/sh") okProc rfl rfl
      rfl).2.2.2.2 rfl rfl).1⟩

/-- C8: when the install script exits non-zero, the installer prints the
failure header followed by the captured standard error text verbatim and
returns `None`; the launcher then prints its failure line and returns exit
code 1. -/
theorem install_nonzero_exit_fails (w : World) (args : List String) (s : String)
    (cp : CompletedProcess)
    (hdl : w.download = Except.ok s)
    (hsr : w.scriptRun = SpawnResult.completed cp)
    (hrc : cp.returncode ≠ 0) :
    (install_sprite w).2 = Except.ok none ∧
    Event.printed failHeaderMsg ∈ (install_sprite w).1 ∧
    Event.printed cp.stderr ∈ (install_sprite w).1 ∧
    ((get_sprite_binary_path w.fs0).2 = none →
      (run_sprite w args).2 = Except.ok 1 ∧
      Event.printed failedFindMsg ∈ (run_sprite w args).1) := by
  have hinst : (install_sprite w).2 = Except.ok none := by
    simp [install_sprite, hdl, hsr, hrc]
  refine ⟨hinst, ?_, ?_, ?_⟩
  · simp [install_sprite, hdl, hsr, hrc]
  · simp [install_sprite, hdl, hsr, hrc]
  · intro hl0
    have hens := ensure_locate_none w hl0
    constructor
    · simp [run_sprite, hens, hinst]
    · simp [run_sprite, hens, hinst]

/-- Shared fixture: the delegated binary run raises `KeyboardInterrupt`. -/
def wDelegateKbd : World :=
  ⟨fsWhichHit, fsWhichHit, fun _ => SpawnResult.completed okProc,
   Except.ok ("#!/bin/sh"), "/tmp/tmpinstall4.sh", SpawnResult.completed okProc,
   fun _ => SpawnResult.raised PyExc.keyboardInterrupt⟩

/-- Shared fixture: the delegated binary run raises an ordinary OSError. -/
def wDelegateErr : World :=
  ⟨fsWhichHit, fsWhichHit, fun _ => SpawnResult.completed okProc,
   Except.ok ("#!/bin/sh"), "/tmp/tmpinstall5.sh", SpawnResult.completed okProc,
   fun _ => SpawnResult.raised (PyExc.otherException ("OSError: broken pipe"))⟩

/-- Shared fixture: `KeyboardInterrupt` arrives while the probe subprocess
is being waited on, before any delegation. -/
def wProbeKbd : World :=
  ⟨fsWhichHit, fsEmpty, fun _ => SpawnResult.raised PyExc.keyboardInterrupt,
   Except.ok ("#!/bin/sh"), "/tmp/tmpinstall8.sh", SpawnResult.completed okProc,
   fun _ => SpawnResult.completed okProc⟩

/-- C9: `KeyboardInterrupt` is interpreted only around the delegation call:
there it yields exit code 130 with the acknowledgment line, and any other
exception of the delegation yields the generic failure line and exit code
1; a `KeyboardInterrupt` raised during the probe phase or during the
install-script phase is caught by neither handler (`except Exception`
excludes it) and propagates out of `run_sprite` instead of receiving the
130 treatment. -/
theorem interrupt_only_during_delegation (w : World) (args : List String) :
    (∀ p, (ensure_sprite_installed w).2 = Except.ok (some p) →
      w.delegateRun (p :: args) = SpawnResult.raised PyExc.keyboardInterrupt →
      run_sprite w args =
        ((ensure_sprite_installed w).1 ++
          [Event.delegateSpawn (p :: args), Event.printed interruptMsg],
         Except.ok 130)) ∧
    (∀ p m, (ensure_sprite_installed w).2 = Except.ok (some p) →
      w.delegateRun (p :: args) = SpawnResult.raised (PyExc.otherException m) →
      run_sprite w args =
        ((ensure_sprite_installed w).1 ++
          [Event.delegateSpawn (p :: args),
           Event.printed (runErrMsg (PyExc.otherException m))],
         Except.ok 1)) ∧
    (∀ p, (get_sprite_binary_path w.fs0).2 = some p →
      w.fs0.pathExists p = true →
      w.probeRun p = SpawnResult.raised PyExc.keyboardInterrupt →
      (run_sprite w args).2 = Except.error PyExc.keyboardInterrupt) ∧
    (∀ s, (get_sprite_binary_path w.fs0).2 = none →
      w.download = Except.ok s →
      w.scriptRun = SpawnResult.raised PyExc.keyboardInterrupt →
      (run_sprite w args).2 = Except.error PyExc.keyboardInterrupt) := by
  refine ⟨?_, ?_, ?_, ?_⟩
  · intro p hres hdel
    simp [run_sprite, hres, hdel]
  · intro p m hres hdel
    simp [run_sprite, hres, hdel, caughtByException]
  · intro p hloc hex hpr
    have hens := ensure_probe_uncaught w p PyExc.keyboardInterrupt hloc hex hpr rfl
    simp [run_sprite, hens]
  · intro s hloc hdl hsr
    have hens := ensure_locate_none w hloc
    have hinst : (install_sprite w).2 = Except.error PyExc.keyboardInterrupt := by
      simp [install_sprite, hdl, hsr, caughtByException]
    simp [run_sprite, hens, hinst]

/-- C9 witness: an interrupt during delegation gives 130 with the
acknowledgment, another delegation exception gives 1 with the generic
message, and an interrupt during the probe phase propagates as an error,
each at its concrete fixture world. -/
theorem interrupt_only_during_delegation_witness :
    run_sprite wDelegateKbd ["attach"] =
      ((ensure_sprite_installed wDelegateKbd).1 ++
        [Event.delegateSpawn ["/usr/local/bin/sprite", "attach"],
         Event.printed interruptMsg], Except.ok 130) ∧
    run_sprite wDelegateErr ["attach"] =
      ((ensure_sprite_installed wDelegateErr).1 ++
        [Event.delegateSpawn ["/usr/local/bin/sprite", "attach"],
         Event.printed (runErrMsg (PyExc.otherException ("OSError: broken pipe")))],
       Except.ok 1) ∧
    (run_sprite wProbeKbd ["attach"]).2 = Except.error PyExc.keyboardInterrupt :=
  ⟨(interrupt_only_during_delegation wDelegateKbd ["attach"]).1
      "/usr/local/bin/sprite" rfl rfl,
   (interrupt_only_during_delegation wDelegateErr ["attach"]).2.1
      "/usr/local/bin/sprite" "OSError: broken pipe" rfl rfl,
   (interrupt_only_during_delegation wProbeKbd ["attach"]).2.2.1
      "/usr/local/bin/sprite" rfl rfl rfl⟩

/-- C10: the health probe is applied only to the path produced by the
first locate: the installer trace contains no probe event at all; in the
install branch entered because nothing was located, the whole run contains
no probe event, and in the branch entered because the located path failed
its probe, every probe event targets that first path; the path returned by
the post-install re-locate is then delegated to without any further
probe. -/
theorem fresh_install_path_not_probed (w : World) (args : List String) :
    (∀ ev ∈ (install_sprite w).1, ev.isProbe = false) ∧
    (∀ q, (get_sprite_binary_path w.fs0).2 = none →
      (install_sprite w).2 = Except.ok (some q) →
      (ensure_sprite_installed w).2 = Except.ok (some q) ∧
      (∀ ev ∈ (ensure_sprite_installed w).1, ev.isProbe = false)) ∧
    (∀ p q cp, (get_sprite_binary_path w.fs0).2 = some p →
      w.fs0.pathExists p = true →
      w.probeRun p = SpawnResult.completed cp → cp.returncode ≠ 0 →
      (install_sprite w).2 = Except.ok (some q) →
      (ensure_sprite_installed w).2 = Except.ok (some q) ∧
      (∀ ev ∈ (ensure_sprite_installed w).1, ev.isProbe = true →
        ev = Event.probeExec p 10)) ∧
    (∀ q cp, (ensure_sprite_installed w).2 = Except.ok (some q) →
      w.delegateRun (q :: args) = SpawnResult.completed cp →
      (run_sprite w args).2 = Except.ok cp.returncode ∧
      (∀ ev ∈ (run_sprite w args).1, ev.isProbe = true →
        ev ∈ (ensure_sprite_installed w).1)) := by
  refine ⟨fun ev h => install_trace_no_probe w ev h, ?_, ?_, ?_⟩
  · intro q hloc hinst
    have hens := ensure_locate_none w hloc
    refine ⟨by rw [hens]; exact hinst, ?_⟩
    intro ev hmem
    rw [hens] at hmem
    rcases List.mem_append.1 hmem with h | h
    · rcases List.mem_append.1 h with h | h
      · exact Event.readOnly_not_probe ev (get_path_trace_readOnly w.fs0 ev h)
      · rcases List.mem_cons.1 h with rfl | h
        · rfl
        · simp at h
    · exact install_trace_no_probe w ev h
  · intro p q cp hloc hex hpr hrc hinst
    have hens := ensure_probe_nonzero w p cp hloc hex hpr hrc
    refine ⟨by rw [hens]; exact hinst, ?_⟩
    intro ev hmem hprobe
    rw [hens] at hmem
    rcases List.mem_append.1 hmem with h | h
    · rcases List.mem_append.1 h with h | h
      · rw [Event.readOnly_not_probe ev (get_path_trace_readOnly w.fs0 ev h)] at hprobe
        exact absurd hprobe (by simp)
      · rcases List.mem_cons.1 h with rfl | h
        · simp [Event.isProbe] at hprobe
        · rcases List.mem_cons.1 h with rfl | h
          · rfl
          · rcases List.mem_cons.1 h with rfl | h
            · simp [Event.isProbe] at hprobe
            · simp at h
    · rw [install_trace_no_probe w ev h] at hprobe
      exact absurd hprobe (by simp)
  · intro q cp hres hdel
    refine ⟨by simp [run_sprite, hres, hdel], ?_⟩
    intro ev hmem hprobe
    simp only [run_sprite, hres, hdel] at hmem
    rcases List.mem_append.1 hmem with h | h
    · exact h
    · rcases List.mem_cons.1 h with rfl | h
      · simp [Event.isProbe] at hprobe
      · simp at h

/-- C10 witness: in the fixture where nothing is initially installed, the
freshly installed `~/.local/bin/sprite` is returned and delegated to while
the whole run contains no probe event. -/
theorem fresh_install_path_not_probed_witness :
    ((ensure_sprite_installed wInstallOk).2 =
        Except.ok (some ("/home/user/.local/bin/sprite")) ∧
      (∀ ev ∈ (ensure_sprite_installed wInstallOk).1, ev.isProbe = false)) ∧
    (run_sprite wInstallOk ["init"]).2 = Except.ok 0 :=
  ⟨(fresh_install_path_not_probed wInstallOk ["init"]).2.1
      "/home/user/.local/bin/sprite" rfl rfl,
   ((fresh_install_path_not_probed wInstallOk ["init"]).2.2.2
      "/home/user/.local/bin/sprite" ⟨0, "", ""⟩ rfl rfl).1⟩

/-- C8 witness: in the fixture where the script exits 1 with stderr text
"cargo: command not found", that text is printed verbatim, the installer
yields no path and the launcher returns 1. -/
theorem install_nonzero_exit_fails_witness :
    (install_sprite wScriptFail).2 = Except.ok none ∧
    Event.printed ("cargo: command not found") ∈ (install_sprite wScriptFail).1 ∧
    (run_sprite wScriptFail ["start"]).2 = Except.ok 1 :=
  ⟨(install_nonzero_exit_fails wScriptFail ["start"] ("#!/bin/sh")
      ⟨1, "", "cargo: command not found"⟩ rfl rfl (by decide)).1,
   (install_nonzero_exit_fails wScriptFail ["start"] ("#!/bin/sh")
      ⟨1, "", "cargo: command not found"⟩ rfl rfl (by decide)).2.2.1,
   ((install_nonzero_exit_fails wScriptFail ["start"] ("#!/bin/sh")
      ⟨1, "", "cargo: command not found"⟩ rfl rfl (by decide)).2.2.2 rfl).1⟩
